import Mathlib

/-! Shallow embedding of the 4th-down decision service
    (decision_service: simulator.py, server.py, cache.py, models_store.py,
    schemas.py, train.py).  Python floats are modelled as exact rationals.
    The learned model artifacts (the EP regressor's `predict`, the calibrated
    WP classifier's `predict_proba`) and `np.exp` enter the simulator as
    abstract function parameters: the properties below are settled for
    arbitrary instantiations, and concrete instantiations are supplied where
    a claim is refuted or witnessed. -/

namespace DecisionService

/-- The `possession` field of `RecommendQuery` (schemas.py):
    `Literal["offense", "defense"]`. -/
inductive Possession where
  | offense
  | defense
  deriving DecidableEq, Repr

/-- Structure `RecommendQuery` (schemas.py): the SituationQuery wire model.  Fields with
    integer bounds are ℤ, float-typed fields are ℚ; optional fields carry the
    pydantic defaults. -/
structure RecommendQuery where
  down : ℤ
  ydstogo : ℤ
  yardline_100 : ℤ
  time_remaining : ℤ
  qtr : ℤ
  score_diff : ℤ
  offense_timeouts : ℤ
  defense_timeouts : ℤ
  home : Bool
  weather_temp : Option ℚ := none
  weather_wind : Option ℚ := none
  weather_rain : Option Bool := none
  possession : Option Possession := some Possession.offense
  team_strength_off : Option ℚ := none
  team_strength_def : Option ℚ := none
  deriving DecidableEq, Repr

/-- The field bounds of `RecommendQuery` / the `/v1/recommend` query
    parameters (schemas.py lines 6-13, server.py lines 123-131). -/
def ValidQuery (q : RecommendQuery) : Prop :=
  1 ≤ q.down ∧ q.down ≤ 4 ∧
  1 ≤ q.ydstogo ∧ q.ydstogo ≤ 100 ∧
  1 ≤ q.yardline_100 ∧ q.yardline_100 ≤ 99 ∧
  0 ≤ q.time_remaining ∧
  1 ≤ q.qtr ∧ q.qtr ≤ 5 ∧
  0 ≤ q.offense_timeouts ∧ q.offense_timeouts ≤ 3 ∧
  0 ≤ q.defense_timeouts ∧ q.defense_timeouts ≤ 3

instance (q : RecommendQuery) : Decidable (ValidQuery q) := by
  unfold ValidQuery; infer_instance

/-- The feature dict built by `_infer_one` (server.py lines 69-81).  The
    optional weather and possession fields of the query are absent here;
    `team_strength_off or 0.0` is `Option.getD _ 0`. -/
structure Features where
  down : ℚ
  ydstogo : ℚ
  yardline_100 : ℚ
  time_remaining : ℚ
  qtr : ℚ
  score_diff : ℚ
  offense_timeouts : ℚ
  defense_timeouts : ℚ
  home : Bool
  team_strength_off : ℚ
  team_strength_def : ℚ
  deriving DecidableEq, Repr

def featuresOf (q : RecommendQuery) : Features :=
  { down := q.down
    ydstogo := q.ydstogo
    yardline_100 := q.yardline_100
    time_remaining := q.time_remaining
    qtr := q.qtr
    score_diff := q.score_diff
    offense_timeouts := q.offense_timeouts
    defense_timeouts := q.defense_timeouts
    home := q.home
    team_strength_off := q.team_strength_off.getD 0
    team_strength_def := q.team_strength_def.getD 0 }

/-- Numpy `np.clip(x, lo, hi)` for `lo ≤ hi`. -/
def npClip (x lo hi : ℚ) : ℚ := min (max x lo) hi

/-- Function `_predict_ep_with_possession` (simulator.py lines 7-23).  The EP model's
    `predict` on the single 9-feature row is the abstract parameter `ep`. -/
def predict_ep_with_possession (ep : List ℚ → ℚ) (base : Features)
    (yardline_offense_view : ℚ) (possession : ℕ) : ℚ :=
  let yardline_for_model :=
    if possession = 1 then yardline_offense_view else 100 - yardline_offense_view
  ep [base.down, base.ydstogo, yardline_for_model, base.qtr, base.time_remaining,
      base.score_diff, base.offense_timeouts, base.defense_timeouts,
      if base.home then 1 else 0]

/-- Function `_ep_to_wp` (simulator.py lines 75-100).  The calibrated classifier's
    `predict_proba(...)[0, 1]` on the single 12-feature row is the abstract
    parameter `wpCal`, and `np.exp` is the abstract parameter `expf`. -/
def ep_to_wp (wpCal : List ℚ → ℚ) (expf : ℚ → ℚ) (base : Features)
    (ep_value : ℚ) (possession : ℕ) : ℚ :=
  let x_mod : List ℚ :=
    [base.down, base.ydstogo, base.yardline_100, base.qtr, base.time_remaining,
     base.score_diff + 0.2 * ep_value, base.offense_timeouts, base.defense_timeouts,
     if base.home then 1 else 0, (possession : ℚ), base.team_strength_off,
     base.team_strength_def]
  let prob := wpCal x_mod
  let score := base.score_diff
  let bias := 1 / (1 + expf (0.18 * (-score)))
  let pos_adj : ℚ := if possession = 1 then 0.06 else -0.06
  let blended := 0.7 * prob + 0.3 * (0.5 * bias + pos_adj + 0.5)
  npClip blended 0.01 0.99

/-- One entry of the dict returned by `simulate_actions_to_wp`. -/
structure WpEp where
  wp : ℚ
  ep : ℚ
  deriving DecidableEq, Repr

/-- The dict returned by `simulate_actions_to_wp`, with its insertion order
    GO, PUNT, FG. -/
structure SimResult where
  GO : WpEp
  PUNT : WpEp
  FG : WpEp
  deriving DecidableEq, Repr

/-- Function `simulate_actions_to_wp` (simulator.py lines 26-72). -/
def simulate_actions_to_wp (ep wpCal : List ℚ → ℚ) (expf : ℚ → ℚ)
    (features : Features) : SimResult :=
  let base := features
  let yardline := base.yardline_100
  -- `float(base["ydstogo"]) if base["ydstogo"] else 1.0`: 0 is falsy
  let togo := if base.ydstogo = 0 then 1 else base.ydstogo
  let p_conv : ℚ := if togo ≤ 2 then 0.65 else if togo ≤ 4 then 0.5 else 0.3
  let go_success_yardline_off := min 99 (yardline + min 6 (togo + 1))
  let go_fail_yardline_off := yardline
  let ep_go_success := predict_ep_with_possession ep base go_success_yardline_off 1
  let ep_go_fail := predict_ep_with_possession ep base go_fail_yardline_off 0
  let ep_go := p_conv * ep_go_success + (1 - p_conv) * ep_go_fail
  let punt_net : ℚ := 38
  let y_after_punt_off := max 1 (yardline - punt_net)
  let ep_punt := predict_ep_with_possession ep base y_after_punt_off 0
  let dist_fg := 118 - yardline
  let p_make := npClip (0.95 - 0.01 * max 0 (dist_fg - 25)) 0.05 0.98
  let ep_after_kick := predict_ep_with_possession ep base 75 0
  let ep_if_make := 3 + ep_after_kick
  let y_off_miss := max 1 (yardline - 7)
  let ep_if_miss := predict_ep_with_possession ep base y_off_miss 0
  let ep_fg := p_make * ep_if_make + (1 - p_make) * ep_if_miss
  let wp_go := ep_to_wp wpCal expf base ep_go 1
  let wp_punt := ep_to_wp wpCal expf base ep_punt 0
  let wp_fg := ep_to_wp wpCal expf base ep_fg 0
  { GO := ⟨wp_go, ep_go⟩, PUNT := ⟨wp_punt, ep_punt⟩, FG := ⟨wp_fg, ep_fg⟩ }

/-- The `action` literal of `Alternative` (schemas.py line 24); only GO, PUNT
    and FG are ever produced by the simulator. -/
inductive Action where
  | GO
  | PUNT
  | FG
  | KNEEL
  | QB_SNEAK
  deriving DecidableEq, Repr

/-- Indexing the `wps` dict by action name; only the three simulated keys
    exist in the dict, the remaining actions are never looked up. -/
def SimResult.get (r : SimResult) : Action → WpEp
  | Action.GO => r.GO
  | Action.PUNT => r.PUNT
  | Action.FG => r.FG
  | _ => ⟨0, 0⟩

/-- Python `max(wps.items(), key=lambda kv: kv[1]["wp"])[0]` (server.py line 85) over
    the dict in insertion order GO, PUNT, FG: a later item replaces the
    running maximum only by strict `>`. -/
def best_action (r : SimResult) : Action :=
  let c := if r.PUNT.wp > r.GO.wp then Action.PUNT else Action.GO
  if r.FG.wp > (r.get c).wp then Action.FG else c

/-- Python `sorted([a, b, c])[-2]`: the middle order statistic of three values. -/
def sorted_second (a b c : ℚ) : ℚ := max (min a b) (min (max a b) c)

structure Alternative where
  action : Action
  wp : ℚ
  ep : ℚ
  deriving DecidableEq, Repr

structure Uncertainty where
  std : ℚ
  method : String
  deriving DecidableEq, Repr

/-- Structure `RecommendResponse` (schemas.py lines 34-41). -/
structure RecommendResponse where
  recommendation : Action
  delta_wp : ℚ
  delta_ep : ℚ
  alternatives : List Alternative
  rationale : List String
  uncertainty : Uncertainty
  version : String
  deriving DecidableEq, Repr

/-- Function `_build_rationale` (server.py lines 106-118); its `wps` argument is
    unused in the source. -/
def build_rationale (p : RecommendQuery) (action : Action) : List String :=
  let r :=
    (if p.ydstogo ≤ 3 then ["To-go <= 3"] else []) ++
    (if p.yardline_100 ≥ 60 then ["Opp red zone field position"] else []) ++
    (if action = Action.GO then ["Calibrated WP favors GO"] else []) ++
    (if action = Action.FG then ["High make probability given distance"] else []) ++
    (if action = Action.PUNT then ["Field position swing favors punt"] else [])
  if r = [] then ["Model preference"] else r

/-- The response construction of `_infer_one` on a cache miss (server.py
    lines 83-101).  `current` is the `_current_version()` value interpolated
    into the response's version string; the `if len(...) >= 2` guards are
    always taken since the dict always holds three entries. -/
def compute_response (ep wpCal : List ℚ → ℚ) (expf : ℚ → ℚ)
    (payload : RecommendQuery) (current : String) : RecommendResponse :=
  let wps := simulate_actions_to_wp ep wpCal expf (featuresOf payload)
  let best := best_action wps
  let delta_wp := (wps.get best).wp - sorted_second wps.GO.wp wps.PUNT.wp wps.FG.wp
  let delta_ep := (wps.get best).ep - sorted_second wps.GO.ep wps.PUNT.ep wps.FG.ep
  let alt : List Alternative :=
    [⟨Action.GO, wps.GO.wp, wps.GO.ep⟩, ⟨Action.PUNT, wps.PUNT.wp, wps.PUNT.ep⟩,
     ⟨Action.FG, wps.FG.wp, wps.FG.ep⟩]
  { recommendation :=
      if best = Action.GO ∨ best = Action.PUNT ∨ best = Action.FG then best
      else Action.GO
    delta_wp := delta_wp
    delta_ep := delta_ep
    alternatives := alt
    rationale := build_rationale payload best
    uncertainty := ⟨0.012, "bootstrap"⟩
    version := "2025-08-" ++ current }

/-- The model artifacts on disk: the version tokens under which both the
    `ep_model` and `wp_model` artifacts were saved (models_store.py names the
    files `{name}__{version}.joblib`), together with the loaded predictors
    for each token. -/
structure ModelStore where
  versions : List String
  ep_model : String → List ℚ → ℚ
  wp_cal : String → List ℚ → ℚ

/-- Strict lexicographic order on unicode code points — the order Python's
    `sorted` applies to the artifact filenames. -/
def chars_lt : List Char → List Char → Bool
  | [], [] => false
  | [], _ :: _ => true
  | _ :: _, [] => false
  | a :: as, b :: bs =>
    if a.toNat < b.toNat then true
    else if b.toNat < a.toNat then false
    else chars_lt as bs

def string_lt (a b : String) : Bool := chars_lt a.data b.data

/-- Function `_current_version` (server.py lines 28-40): the `*.joblib` files sorted
    lexicographically, last file's token.  With both artifacts saved per
    version the last file is `wp_model__v` for the greatest token `v`, so the
    result is the maximum version string, or "unknown" with no artifacts. -/
def current_version (s : ModelStore) : String :=
  match s.versions with
  | [] => "unknown"
  | v :: vs => vs.foldl (fun a b => if string_lt a b then b else a) v

/-- Function `load_model` (models_store.py lines 22-26) for both artifacts of one
    version: `joblib.load` raises `FileNotFoundError` (ArtifactNotFound) when
    no file exists at the key, modelled as `none`. -/
def load_model_at (s : ModelStore) (version : String) :
    Option ((List ℚ → ℚ) × (List ℚ → ℚ)) :=
  if version ∈ s.versions then some (s.ep_model version, s.wp_cal version) else none

/-- The process-wide response cache (cache.py): keyed by the canonical
    sorted-key JSON serialization of the query's full `model_dump()`, i.e. by
    the query value itself (the 128-bit digest is injective on canonical
    forms up to collisions).  New entries go in front; the LRU capacity of
    200,000 is never reached in any property below. -/
abbrev Cache := List (RecommendQuery × RecommendResponse)

def cache_get (c : Cache) (q : RecommendQuery) : Option RecommendResponse :=
  List.lookup q c

inductive ServeError where
  | artifactNotFound
  | telemetryFailed
  deriving DecidableEq, Repr

/-- Python `version_override or _current_version()` (server.py line 64): the Python
    `or` treats an empty header string as falsy. -/
def effective_version (override : Option String) (current : String) : String :=
  match override with
  | some v => if v = "" then current else v
  | none => current

/-- Function `_infer_one` (server.py lines 58-103): cache lookup first; on a miss,
    resolve the effective version, load both artifacts (ArtifactNotFound when
    missing), build the response, populate the cache. -/
def infer_one (expf : ℚ → ℚ) (s : ModelStore) (c : Cache)
    (payload : RecommendQuery) (version_override : Option String) :
    Except ServeError (RecommendResponse × Cache) :=
  match cache_get c payload with
  | some cached => Except.ok (cached, c)
  | none =>
    let version := effective_version version_override (current_version s)
    match load_model_at s version with
    | none => Except.error ServeError.artifactNotFound
    | some (ep, wpCal) =>
      let resp := compute_response ep wpCal expf payload (current_version s)
      Except.ok (resp, (payload, resp) :: c)

/-- The `/v1/recommend` handler (server.py lines 121-158): after `_infer_one`
    succeeds, the telemetry row is inserted inside `engine.begin()` with no
    exception handling before `return resp`; `telemetry_ok` models whether
    that INSERT succeeds. -/
def recommend_endpoint (expf : ℚ → ℚ) (s : ModelStore) (c : Cache)
    (payload : RecommendQuery) (version_override : Option String)
    (telemetry_ok : Bool) : Except ServeError (RecommendResponse × Cache) :=
  match infer_one expf s c payload version_override with
  | Except.error e => Except.error e
  | Except.ok (resp, c') =>
    if telemetry_ok then Except.ok (resp, c') else Except.error ServeError.telemetryFailed

/-- The `/v1/bulk` handler (server.py lines 161-166): a sequential list
    comprehension of `_infer_one` over the items with the shared cache; an
    exception on any item aborts the whole request. -/
def bulk_endpoint (expf : ℚ → ℚ) (s : ModelStore) (c : Cache)
    (items : List RecommendQuery) (version_override : Option String) :
    Except ServeError (List RecommendResponse × Cache) :=
  match items with
  | [] => Except.ok ([], c)
  | q :: rest =>
    match infer_one expf s c q version_override with
    | Except.error e => Except.error e
    | Except.ok (r, c') =>
      match bulk_endpoint expf s c' rest version_override with
      | Except.error e => Except.error e
      | Except.ok (rs, c'') => Except.ok (r :: rs, c'')

/-- Modelled from the spec: the trained EP regressor artifact is not source
    code (only `train.py`, which fits it, is under src).  Per spec §4.2 the
    training target is "a hand-specified linear ground-truth formula for
    expected points"; this is that formula (train.py lines 55-62), used as
    the loaded EP model where a claim is about "the models as loaded". -/
def ep_ground_truth : List ℚ → ℚ
  | [down, ydstogo, yardline_100, _qtr, time_remaining, score_diff, _ot, _dt, home] =>
    0.08 * yardline_100 + 0.02 * (3600 - time_remaining) / 60 +
      0.05 * score_diff - 0.1 * max (ydstogo - 3) 0 - 0.15 * (down - 1) + 0.05 * home
  | _ => 0

/-- A concrete EP model for counterexamples: one tenth of the yardline
    feature (slot 2 of the 9-feature EP vector). -/
def ep_yard_tenth : List ℚ → ℚ := fun x => x.getD 2 0 / 10

/-- A concrete calibrated classifier for counterexamples: constant 1/2. -/
def wp_const_half : List ℚ → ℚ := fun _ => 1 / 2

/-- A concrete stand-in for `np.exp` at counterexample inputs: constant 1
    (the claims settled below hold or fail for any such function). -/
def exp_const_one : ℚ → ℚ := fun _ => 1

/-- The spec §8 scenario query (all optional fields at their defaults). -/
def q_scenario : RecommendQuery :=
  { down := 4, ydstogo := 1, yardline_100 := 45, time_remaining := 120, qtr := 4,
    score_diff := -3, offense_timeouts := 1, defense_timeouts := 2, home := true }

/-- A situation where the WP-argmax action (GO, by the possession bonus) does
    not carry the largest expected points. -/
def q_c3 : RecommendQuery :=
  { down := 4, ydstogo := 5, yardline_100 := 50, time_remaining := 300, qtr := 3,
    score_diff := 0, offense_timeouts := 3, defense_timeouts := 3, home := true }

/-- The FastAPI app version prefixed into every response version string. -/
def app_version : String := "2025-08"

/-- An older stored artifact version token. -/
def v_old : String := "2025-07"

/-- The newest stored artifact version token. -/
def v_new : String := "2025-09"

/-- A version token with no stored artifact. -/
def v_missing : String := "1999-01"

/-- The response version field produced while `v_new` is the newest artifact. -/
def ver_latest_field : String := "2025-08-2025-09"

/-- The model-version field of a served result, when the request succeeded. -/
def result_version : Except ServeError (RecommendResponse × Cache) → Option String
  | Except.ok (r, _) => some r.version
  | Except.error _ => none

/-- A store holding both artifacts under two version tokens. -/
def store_two : ModelStore :=
  { versions := [v_old, v_new]
    ep_model := fun _ => ep_yard_tenth
    wp_cal := fun _ => wp_const_half }

/-- A previously cached response (computed under an older model version). -/
def r_stale : RecommendResponse :=
  { recommendation := Action.PUNT, delta_wp := 0, delta_ep := 0, alternatives := []
    rationale := ["Model preference"], uncertainty := ⟨0.012, "bootstrap"⟩
    version := "2025-08-2025-07" }

/-- The spec §8 scenario query with every optional weather/possession field
    populated differently from `q_scenario`. -/
def q_weather : RecommendQuery :=
  { q_scenario with
    weather_temp := some 70
    weather_wind := some 12
    weather_rain := some true
    possession := some Possession.defense }

/-- A valid situation deep in the offense's own territory
    (`yardline_100 = 1`), where the GO failure branch dominates `EP(GO)`. -/
def q_c9 : RecommendQuery :=
  { down := 4, ydstogo := 1, yardline_100 := 1, time_remaining := 120, qtr := 4,
    score_diff := -3, offense_timeouts := 1, defense_timeouts := 2, home := true }

/-! Spec-side formulas (written from the claims' words, to be compared with
    the source-side simulator). -/

/-- Spec §4.1: the 9-entry EP feature vector, with the yardline slot already
    expressed in the possessor's perspective. -/
def ep_features_at (q : RecommendQuery) (yardline_for_model : ℚ) : List ℚ :=
  [q.down, q.ydstogo, yardline_for_model, q.qtr, q.time_remaining, q.score_diff,
   q.offense_timeouts, q.defense_timeouts, if q.home then 1 else 0]

/-- Claim C1's formula for `EP(GO)`: `p_convert` keyed on integer yards-to-go,
    success at offense-view `min(99, yardline + min(6, yardsToGo + 1))` with
    possession retained, failure at the same yardline with the 100-minus
    transform applied. -/
def go_ep_spec_formula (ep : List ℚ → ℚ) (q : RecommendQuery) : ℚ :=
  let p_convert : ℚ := if q.ydstogo ≤ 2 then 0.65 else if q.ydstogo ≤ 4 then 0.5 else 0.3
  let success :=
    ep (ep_features_at q (min 99 ((q.yardline_100 : ℚ) + min 6 ((q.ydstogo : ℚ) + 1))))
  let failure := ep (ep_features_at q (100 - (q.yardline_100 : ℚ)))
  p_convert * success + (1 - p_convert) * failure

/-- Claim C2's formula for `EP(FG)`: `p_make` the clamped linear heuristic,
    make branch `3 +` the EP model with possession flipped at offense-view 75,
    miss branch the EP model with possession flipped at offense-view
    `max(1, yardline - 7)`. -/
def fg_ep_spec_formula (ep : List ℚ → ℚ) (q : RecommendQuery) : ℚ :=
  let p_make : ℚ :=
    min (max (0.95 - 0.01 * max 0 ((118 - (q.yardline_100 : ℚ)) - 25)) 0.05) 0.98
  let make := 3 + ep (ep_features_at q (100 - 75))
  let miss := ep (ep_features_at q (100 - max 1 ((q.yardline_100 : ℚ) - 7)))
  p_make * make + (1 - p_make) * miss

/-- C1: for every valid situation and any loaded models, the simulator's
    expected points for GO equal
    `p_convert * EP(success) + (1 - p_convert) * EP(failure)` with
    `p_convert` keyed on yards-to-go (≤2 → 0.65, ≤4 → 0.5, else 0.3), the
    success branch evaluated at offense-view
    `min(99, yardline + min(6, yardsToGo + 1))` with possession retained and
    the failure branch at the same yardline with possession flipped
    (100-minus transform). -/
theorem go_ep_matches_spec (ep wpCal : List ℚ → ℚ) (expf : ℚ → ℚ)
    (q : RecommendQuery) (hq : ValidQuery q) :
    (simulate_actions_to_wp ep wpCal expf (featuresOf q)).GO.ep =
      go_ep_spec_formula ep q := by
  obtain ⟨-, -, h1, -⟩ := hq
  have h0 : (q.ydstogo : ℚ) ≠ 0 := Int.cast_ne_zero.mpr (by omega)
  have h2 : ((q.ydstogo : ℚ) ≤ 2) ↔ (q.ydstogo ≤ 2) := by exact_mod_cast Iff.rfl
  have h4 : ((q.ydstogo : ℚ) ≤ 4) ↔ (q.ydstogo ≤ 4) := by exact_mod_cast Iff.rfl
  simp only [simulate_actions_to_wp, predict_ep_with_possession, featuresOf,
    go_ep_spec_formula, ep_features_at, h0, if_neg, if_false, if_true]
  norm_num [h0, h2, h4]

/-- Witness for C1 at the spec §8 scenario query and concrete models. -/
theorem go_ep_matches_spec_witness :
    ValidQuery q_scenario ∧
      (simulate_actions_to_wp ep_yard_tenth wp_const_half exp_const_one
          (featuresOf q_scenario)).GO.ep =
        go_ep_spec_formula ep_yard_tenth q_scenario :=
  ⟨by decide,
   go_ep_matches_spec ep_yard_tenth wp_const_half exp_const_one q_scenario (by decide)⟩

/-- C2: for every situation and any loaded models, the simulator's expected
    points for FG equal `p_make * (3 + EP(kickoff)) + (1 - p_make) * EP(miss)`
    with `p_make = clamp(0.95 - 0.01 * max(0, (118 - yardline) - 25), 0.05,
    0.98)`, the make branch evaluated with possession flipped at offense-view
    yardline 75 and the miss branch with possession flipped at offense-view
    `max(1, yardline - 7)`. -/
theorem fg_ep_matches_spec (ep wpCal : List ℚ → ℚ) (expf : ℚ → ℚ)
    (q : RecommendQuery) :
    (simulate_actions_to_wp ep wpCal expf (featuresOf q)).FG.ep =
      fg_ep_spec_formula ep q := by
  simp only [simulate_actions_to_wp, predict_ep_with_possession, featuresOf,
    fg_ep_spec_formula, ep_features_at, npClip]
  norm_num

/-! Helper lemmas on the recommendation selection. -/

theorem best_action_wp_eq_max (r : SimResult) :
    (r.get (best_action r)).wp = max r.GO.wp (max r.PUNT.wp r.FG.wp) := by
  simp only [best_action]
  by_cases h1 : r.PUNT.wp > r.GO.wp
  · rw [if_pos h1]
    simp only [SimResult.get]
    by_cases h2 : r.FG.wp > r.PUNT.wp
    · rw [if_pos h2]
      simp only [SimResult.get]
      rw [max_eq_right (le_of_lt h2), max_eq_right (le_of_lt (h1.trans h2))]
    · rw [if_neg h2]
      push_neg at h2
      simp only [SimResult.get]
      rw [max_eq_left h2, max_eq_right (le_of_lt h1)]
  · rw [if_neg h1]
    push_neg at h1
    simp only [SimResult.get]
    by_cases h2 : r.FG.wp > r.GO.wp
    · rw [if_pos h2]
      simp only [SimResult.get]
      rw [max_eq_right (h1.trans (le_of_lt h2)), max_eq_right (le_of_lt h2)]
    · rw [if_neg h2]
      push_neg at h2
      simp only [SimResult.get]
      rw [max_eq_left (max_le h1 h2)]

theorem best_action_wp_ge (r : SimResult) :
    r.GO.wp ≤ (r.get (best_action r)).wp ∧ r.PUNT.wp ≤ (r.get (best_action r)).wp ∧
      r.FG.wp ≤ (r.get (best_action r)).wp := by
  rw [best_action_wp_eq_max]
  exact ⟨le_max_left _ _, le_trans (le_max_left _ _) (le_max_right _ _),
    le_trans (le_max_right _ _) (le_max_right _ _)⟩

theorem best_action_cases (r : SimResult) :
    best_action r = Action.GO ∨ best_action r = Action.PUNT ∨
      best_action r = Action.FG := by
  simp only [best_action]
  split_ifs <;> simp

theorem sorted_second_le_max3 (a b c : ℚ) :
    sorted_second a b c ≤ max a (max b c) := by
  unfold sorted_second
  apply max_le
  · exact le_trans (min_le_left a b) (le_max_left _ _)
  · exact le_trans (min_le_right _ c) (le_trans (le_max_right b c) (le_max_right a _))

theorem ep_to_wp_bounds (wpCal : List ℚ → ℚ) (expf : ℚ → ℚ) (base : Features)
    (v : ℚ) (p : ℕ) :
    0.01 ≤ ep_to_wp wpCal expf base v p ∧ ep_to_wp wpCal expf base v p ≤ 0.99 := by
  unfold ep_to_wp npClip
  constructor
  · exact le_min (le_max_right _ _) (by norm_num)
  · exact min_le_right _ _

theorem recommendation_eq_best_action (ep wpCal : List ℚ → ℚ) (expf : ℚ → ℚ)
    (q : RecommendQuery) (current : String) :
    (compute_response ep wpCal expf q current).recommendation =
      best_action (simulate_actions_to_wp ep wpCal expf (featuresOf q)) := by
  simp only [compute_response]
  rcases best_action_cases (simulate_actions_to_wp ep wpCal expf (featuresOf q)) with
    h | h | h <;> rw [h] <;> simp

/-- C3 counterexample: at `q_c3` (4th and 5 from the 50) with a constant-1/2
    calibrated classifier and an EP model returning a tenth of its yardline
    feature, the recommended action is the WP-argmax GO while PUNT and FG
    carry larger expected points, so `delta_ep` is negative — contradicting
    the claim that it is the (non-negative) gap between the best and
    second-best expected points. -/
theorem deltas_counterexample :
    (compute_response ep_yard_tenth wp_const_half exp_const_one q_c3
        app_version).delta_ep < 0 := by
  norm_num [compute_response, simulate_actions_to_wp, ep_to_wp,
    predict_ep_with_possession, featuresOf, ep_yard_tenth, wp_const_half,
    exp_const_one, q_c3, best_action, SimResult.get, sorted_second, npClip,
    min_def, max_def, List.getD, List.get?]

/-- C3 amended: `deltaWinProbability` is the gap between the best and
    second-best win probability among the three simulated actions (hence
    non-negative), while `deltaExpectedPoints` is the expected points of the
    recommended (highest-WP) action minus the second-best expected points —
    not the best-vs-second-best EP gap, and it may be negative. -/
theorem deltas_amended (ep wpCal : List ℚ → ℚ) (expf : ℚ → ℚ)
    (q : RecommendQuery) (current : String) :
    (compute_response ep wpCal expf q current).delta_wp =
        max (simulate_actions_to_wp ep wpCal expf (featuresOf q)).GO.wp
            (max (simulate_actions_to_wp ep wpCal expf (featuresOf q)).PUNT.wp
              (simulate_actions_to_wp ep wpCal expf (featuresOf q)).FG.wp) -
          sorted_second (simulate_actions_to_wp ep wpCal expf (featuresOf q)).GO.wp
            (simulate_actions_to_wp ep wpCal expf (featuresOf q)).PUNT.wp
            (simulate_actions_to_wp ep wpCal expf (featuresOf q)).FG.wp ∧
      0 ≤ (compute_response ep wpCal expf q current).delta_wp ∧
      (compute_response ep wpCal expf q current).delta_ep =
        ((simulate_actions_to_wp ep wpCal expf (featuresOf q)).get
            (best_action (simulate_actions_to_wp ep wpCal expf (featuresOf q)))).ep -
          sorted_second (simulate_actions_to_wp ep wpCal expf (featuresOf q)).GO.ep
            (simulate_actions_to_wp ep wpCal expf (featuresOf q)).PUNT.ep
            (simulate_actions_to_wp ep wpCal expf (featuresOf q)).FG.ep := by
  set wps := simulate_actions_to_wp ep wpCal expf (featuresOf q) with hwps
  have hdwp : (compute_response ep wpCal expf q current).delta_wp =
      (wps.get (best_action wps)).wp -
        sorted_second wps.GO.wp wps.PUNT.wp wps.FG.wp := rfl
  refine ⟨?_, ?_, rfl⟩
  · rw [hdwp, best_action_wp_eq_max]
  · rw [hdwp, best_action_wp_eq_max]
    have := sorted_second_le_max3 wps.GO.wp wps.PUNT.wp wps.FG.wp
    linarith

/-- C4: for every valid situation and any loaded models, the computed
    result's alternatives are exactly GO, PUNT, FG (in that order, each
    once), every alternative's win probability lies in `[0.01, 0.99]`
    (the blended probability is clamped), and the recommendation is the
    alternative of highest blended win probability. -/
theorem action_set_invariant (ep wpCal : List ℚ → ℚ) (expf : ℚ → ℚ)
    (q : RecommendQuery) (current : String) (hq : ValidQuery q) :
    ((compute_response ep wpCal expf q current).alternatives.map Alternative.action =
        [Action.GO, Action.PUNT, Action.FG]) ∧
      (∀ a ∈ (compute_response ep wpCal expf q current).alternatives,
        0.01 ≤ a.wp ∧ a.wp ≤ 0.99) ∧
      (∃ b ∈ (compute_response ep wpCal expf q current).alternatives,
        b.action = (compute_response ep wpCal expf q current).recommendation ∧
          ∀ a ∈ (compute_response ep wpCal expf q current).alternatives,
            a.wp ≤ b.wp) := by
  set wps := simulate_actions_to_wp ep wpCal expf (featuresOf q) with hwps
  have halt : (compute_response ep wpCal expf q current).alternatives =
      [⟨Action.GO, wps.GO.wp, wps.GO.ep⟩, ⟨Action.PUNT, wps.PUNT.wp, wps.PUNT.ep⟩,
       ⟨Action.FG, wps.FG.wp, wps.FG.ep⟩] := rfl
  have hgo : wps.GO.wp = ep_to_wp wpCal expf (featuresOf q) wps.GO.ep 1 := rfl
  have hpunt : wps.PUNT.wp = ep_to_wp wpCal expf (featuresOf q) wps.PUNT.ep 0 := rfl
  have hfg : wps.FG.wp = ep_to_wp wpCal expf (featuresOf q) wps.FG.ep 0 := rfl
  have hmax := best_action_wp_eq_max wps
  refine ⟨by rw [halt]; rfl, ?_, ?_⟩
  · intro a ha
    rw [halt] at ha
    simp only [List.mem_cons, List.not_mem_nil, or_false] at ha
    rcases ha with rfl | rfl | rfl
    · exact ⟨by rw [hgo]; exact (ep_to_wp_bounds _ _ _ _ _).1,
        by rw [hgo]; exact (ep_to_wp_bounds _ _ _ _ _).2⟩
    · exact ⟨by rw [hpunt]; exact (ep_to_wp_bounds _ _ _ _ _).1,
        by rw [hpunt]; exact (ep_to_wp_bounds _ _ _ _ _).2⟩
    · exact ⟨by rw [hfg]; exact (ep_to_wp_bounds _ _ _ _ _).1,
        by rw [hfg]; exact (ep_to_wp_bounds _ _ _ _ _).2⟩
  · have hrec := recommendation_eq_best_action ep wpCal expf q current
    rw [← hwps] at hrec
    obtain ⟨g1, g2, g3⟩ := best_action_wp_ge wps
    rcases best_action_cases wps with hb | hb | hb
    · have hbwp : (wps.get (best_action wps)).wp = wps.GO.wp := by rw [hb]; rfl
      rw [hbwp] at g1 g2 g3
      refine ⟨⟨Action.GO, wps.GO.wp, wps.GO.ep⟩, ?_, ?_, ?_⟩
      · rw [halt]; exact List.mem_cons_self _ _
      · rw [hrec, hb]
      · intro a ha
        rw [halt] at ha
        simp only [List.mem_cons, List.not_mem_nil, or_false] at ha
        rcases ha with rfl | rfl | rfl
        · exact g1
        · exact g2
        · exact g3
    · have hbwp : (wps.get (best_action wps)).wp = wps.PUNT.wp := by rw [hb]; rfl
      rw [hbwp] at g1 g2 g3
      refine ⟨⟨Action.PUNT, wps.PUNT.wp, wps.PUNT.ep⟩, ?_, ?_, ?_⟩
      · rw [halt]
        exact List.mem_cons_of_mem _ (List.mem_cons_self _ _)
      · rw [hrec, hb]
      · intro a ha
        rw [halt] at ha
        simp only [List.mem_cons, List.not_mem_nil, or_false] at ha
        rcases ha with rfl | rfl | rfl
        · exact g1
        · exact g2
        · exact g3
    · have hbwp : (wps.get (best_action wps)).wp = wps.FG.wp := by rw [hb]; rfl
      rw [hbwp] at g1 g2 g3
      refine ⟨⟨Action.FG, wps.FG.wp, wps.FG.ep⟩, ?_, ?_, ?_⟩
      · rw [halt]
        exact List.mem_cons_of_mem _ (List.mem_cons_of_mem _ (List.mem_cons_self _ _))
      · rw [hrec, hb]
      · intro a ha
        rw [halt] at ha
        simp only [List.mem_cons, List.not_mem_nil, or_false] at ha
        rcases ha with rfl | rfl | rfl
        · exact g1
        · exact g2
        · exact g3

/-- Witness for C4 at the spec §8 scenario query and concrete models. -/
theorem action_set_invariant_witness :
    ValidQuery q_scenario ∧
      (((compute_response ep_yard_tenth wp_const_half exp_const_one q_scenario
            app_version).alternatives.map Alternative.action =
          [Action.GO, Action.PUNT, Action.FG]) ∧
        (∀ a ∈ (compute_response ep_yard_tenth wp_const_half exp_const_one q_scenario
            app_version).alternatives, 0.01 ≤ a.wp ∧ a.wp ≤ 0.99) ∧
        (∃ b ∈ (compute_response ep_yard_tenth wp_const_half exp_const_one q_scenario
            app_version).alternatives,
          b.action = (compute_response ep_yard_tenth wp_const_half exp_const_one
              q_scenario app_version).recommendation ∧
            ∀ a ∈ (compute_response ep_yard_tenth wp_const_half exp_const_one q_scenario
              app_version).alternatives, a.wp ≤ b.wp)) :=
  ⟨by decide, action_set_invariant ep_yard_tenth wp_const_half exp_const_one q_scenario
    app_version (by decide)⟩

/-- C5 counterexample: on a cache miss with override "2025-07" — an existing
    stored version — the request succeeds but the response's version field is
    "2025-08-2025-09" (the fixed service prefix plus the lexicographically
    greatest stored token), which does not contain the requested token
    "2025-07" at all. -/
theorem version_override_counterexample :
    result_version (infer_one exp_const_one store_two [] q_scenario (some v_old)) =
        some ver_latest_field ∧
      ¬ (v_old.toList <:+: ver_latest_field.toList) := by
  refine ⟨by decide, by decide⟩

/-- C5 amended: on a cache miss with a non-empty override naming an existing
    version token, the request succeeds and the response's model-version
    field is the fixed prefix "2025-08-" followed by the store's current
    (lexicographically greatest) version token, independent of the override;
    it reflects the override token only when that token is the current one. -/
theorem version_override_amended (expf : ℚ → ℚ) (s : ModelStore) (c : Cache)
    (q : RecommendQuery) (v : String) (hmiss : cache_get c q = none)
    (hne : v ≠ "") (hv : v ∈ s.versions) :
    result_version (infer_one expf s c q (some v)) =
      some ("2025-08-" ++ current_version s) := by
  simp only [infer_one, effective_version, load_model_at, hmiss, hne, hv,
    ite_true, ite_false, if_true, if_false, result_version, compute_response]

/-- Witness for the amended C5 at a concrete store, query and override. -/
theorem version_override_amended_witness :
    cache_get [] q_scenario = none ∧ v_old ≠ "" ∧
      v_old ∈ store_two.versions ∧
      result_version (infer_one exp_const_one store_two [] q_scenario
          (some v_old)) =
        some ("2025-08-" ++ current_version store_two) :=
  ⟨rfl, by decide, by decide,
    version_override_amended exp_const_one store_two [] q_scenario v_old rfl
      (by decide) (by decide)⟩

/-- C6 (code bug): `_infer_one` consults the cache before it even reads the
    version override, so a cached situation is served the stale entry
    unchanged for every override — there is no way to bypass the cache. -/
theorem override_does_not_bypass_cache (expf : ℚ → ℚ) (s : ModelStore) (c : Cache)
    (q : RecommendQuery) (r : RecommendResponse) (ov : Option String)
    (hc : cache_get c q = some r) :
    infer_one expf s c q ov = Except.ok (r, c) := by
  simp only [infer_one, hc]

/-- Witness for C6: with the stale entry cached, an explicit override naming
    the newer stored version still returns the stale entry. -/
theorem override_does_not_bypass_cache_witness :
    cache_get [(q_scenario, r_stale)] q_scenario = some r_stale ∧
      infer_one exp_const_one store_two [(q_scenario, r_stale)] q_scenario
          (some v_new) =
        Except.ok (r_stale, [(q_scenario, r_stale)]) :=
  ⟨rfl, override_does_not_bypass_cache exp_const_one store_two
    [(q_scenario, r_stale)] q_scenario r_stale (some v_new) rfl⟩

/-- C7 (code bug): in a bulk request an artifact-not-found failure on the
    second item aborts the whole request — the first item's already-computed
    success is discarded and no per-item results are returned. -/
theorem bulk_aborts_siblings (expf : ℚ → ℚ) (s : ModelStore) (c : Cache)
    (q1 q2 : RecommendQuery) (r1 : RecommendResponse) (v : String)
    (hc1 : cache_get c q1 = some r1) (hc2 : cache_get c q2 = none)
    (hne : v ≠ "") (hv : v ∉ s.versions) :
    bulk_endpoint expf s c [q1, q2] (some v) =
      Except.error ServeError.artifactNotFound := by
  simp only [bulk_endpoint, infer_one, effective_version, load_model_at,
    hc1, hc2, hne, hv, ite_true, ite_false, if_true, if_false]

/-- Witness for C7: first item cached (would succeed), second item uncached
    under a nonexistent override version — the whole bulk request errors. -/
theorem bulk_aborts_siblings_witness :
    cache_get [(q_scenario, r_stale)] q_scenario = some r_stale ∧
      cache_get [(q_scenario, r_stale)] q_c3 = none ∧
      v_missing ∉ store_two.versions ∧
      bulk_endpoint exp_const_one store_two [(q_scenario, r_stale)]
          [q_scenario, q_c3] (some v_missing) =
        Except.error ServeError.artifactNotFound :=
  ⟨rfl, rfl, by decide,
    bulk_aborts_siblings exp_const_one store_two [(q_scenario, r_stale)]
      q_scenario q_c3 r_stale v_missing rfl rfl (by decide) (by decide)⟩

/-- C8 (code bug): the telemetry INSERT runs inside the request handler with
    no exception handling, so when it fails the user-facing request fails
    even though the recommendation was already computed. -/
theorem telemetry_failure_fails_request (expf : ℚ → ℚ) (s : ModelStore) (c : Cache)
    (q : RecommendQuery) (ov : Option String) (r : RecommendResponse) (c' : Cache)
    (h : infer_one expf s c q ov = Except.ok (r, c')) :
    recommend_endpoint expf s c q ov false =
      Except.error ServeError.telemetryFailed := by
  simp only [recommend_endpoint, h, Bool.false_eq_true, if_false, ite_false]

/-- Witness for C8: a request whose recommendation is computed (served from
    cache) still fails when the telemetry append fails. -/
theorem telemetry_failure_fails_request_witness :
    infer_one exp_const_one store_two [(q_scenario, r_stale)] q_scenario none =
        Except.ok (r_stale, [(q_scenario, r_stale)]) ∧
      recommend_endpoint exp_const_one store_two [(q_scenario, r_stale)] q_scenario
          none false =
        Except.error ServeError.telemetryFailed :=
  ⟨rfl, telemetry_failure_fails_request exp_const_one store_two
    [(q_scenario, r_stale)] q_scenario none r_stale [(q_scenario, r_stale)] rfl⟩

/-- C10: the optional weather fields and the possession field are accepted by
    validation but never flow into the feature map, the rationale or any
    other part of the computed result: two queries equal on every other
    field produce identical responses. -/
theorem weather_possession_noninterference (ep wpCal : List ℚ → ℚ) (expf : ℚ → ℚ)
    (current : String) (q1 q2 : RecommendQuery)
    (h1 : q1.down = q2.down) (h2 : q1.ydstogo = q2.ydstogo)
    (h3 : q1.yardline_100 = q2.yardline_100)
    (h4 : q1.time_remaining = q2.time_remaining) (h5 : q1.qtr = q2.qtr)
    (h6 : q1.score_diff = q2.score_diff)
    (h7 : q1.offense_timeouts = q2.offense_timeouts)
    (h8 : q1.defense_timeouts = q2.defense_timeouts) (h9 : q1.home = q2.home)
    (h10 : q1.team_strength_off = q2.team_strength_off)
    (h11 : q1.team_strength_def = q2.team_strength_def) :
    compute_response ep wpCal expf q1 current =
      compute_response ep wpCal expf q2 current := by
  have hf : featuresOf q1 = featuresOf q2 := by
    simp only [featuresOf, h1, h2, h3, h4, h5, h6, h7, h8, h9, h10, h11]
  have hr : build_rationale q1 = build_rationale q2 := by
    funext a
    simp only [build_rationale, h2, h3]
  simp only [compute_response, hf, hr]

/-- Witness for C10: the spec §8 scenario query with and without weather and
    possession values — distinct queries, identical computed responses. -/
theorem weather_possession_noninterference_witness :
    q_scenario ≠ q_weather ∧
      compute_response ep_yard_tenth wp_const_half exp_const_one q_scenario
          app_version =
        compute_response ep_yard_tenth wp_const_half exp_const_one q_weather
          app_version :=
  ⟨by decide,
    weather_possession_noninterference ep_yard_tenth wp_const_half exp_const_one
      app_version q_scenario q_weather rfl rfl rfl rfl rfl rfl rfl rfl rfl rfl rfl⟩

/-- C9 counterexample (with the spec-modelled ground-truth EP formula as the
    loaded model): at `q_c9` — valid, `yardline_100 = 1` — the simulator's
    `EP(GO)` at yards-to-go 1 is strictly *smaller* than at yards-to-go 8:
    the failure branch, which is worth more here because the EP model is
    evaluated from the opponent's flipped perspective at yard 99 and added
    (not negated), gets more weight at long distance. -/
theorem go_monotonicity_counterexample :
    ValidQuery q_c9 ∧ ValidQuery { q_c9 with ydstogo := 8 } ∧
      (simulate_actions_to_wp ep_ground_truth wp_const_half exp_const_one
          (featuresOf q_c9)).GO.ep <
        (simulate_actions_to_wp ep_ground_truth wp_const_half exp_const_one
          (featuresOf { q_c9 with ydstogo := 8 })).GO.ep := by
  refine ⟨by decide, by decide, ?_⟩
  norm_num [simulate_actions_to_wp, predict_ep_with_possession, featuresOf,
    ep_ground_truth, q_c9, min_def, max_def]

/-- C9 amended (with the spec-modelled ground-truth EP formula as the loaded
    model): on the offense's side of the comparison — `yardline_100 ≥ 42` —
    decreasing yards-to-go from 8 to 1 never decreases the simulator's
    `EP(GO)`; below yard 42 the claim fails (see the counterexample). -/
theorem go_monotonicity_amended (wpCal : List ℚ → ℚ) (expf : ℚ → ℚ)
    (q : RecommendQuery) (hq : ValidQuery q) (hy : 42 ≤ q.yardline_100) :
    (simulate_actions_to_wp ep_ground_truth wpCal expf
        (featuresOf { q with ydstogo := 8 })).GO.ep ≤
      (simulate_actions_to_wp ep_ground_truth wpCal expf
        (featuresOf { q with ydstogo := 1 })).GO.ep := by
  obtain ⟨-, -, -, -, -, hy99, -⟩ := hq
  have hy99' : (q.yardline_100 : ℚ) ≤ 99 := by exact_mod_cast hy99
  have hy42' : (42 : ℚ) ≤ (q.yardline_100 : ℚ) := by exact_mod_cast hy
  simp only [simulate_actions_to_wp, predict_ep_with_possession, featuresOf,
    ep_ground_truth]
  norm_num
  rcases le_or_lt ((q.yardline_100 : ℚ) + 6) 99 with h6 | h6
  · rw [min_eq_right h6,
      min_eq_right (by linarith : (q.yardline_100 : ℚ) + 2 ≤ 99)]
    linarith
  · rw [min_eq_left (by linarith : (99 : ℚ) ≤ (q.yardline_100 : ℚ) + 6)]
    rcases le_or_lt ((q.yardline_100 : ℚ) + 2) 99 with h2 | h2
    · rw [min_eq_right h2]
      linarith
    · rw [min_eq_left (by linarith : (99 : ℚ) ≤ (q.yardline_100 : ℚ) + 2)]
      linarith

/-- Witness for the amended C9 at the spec §8 scenario (yardline 45). -/
theorem go_monotonicity_amended_witness :
    ValidQuery q_scenario ∧ 42 ≤ q_scenario.yardline_100 ∧
      (simulate_actions_to_wp ep_ground_truth wp_const_half exp_const_one
          (featuresOf { q_scenario with ydstogo := 8 })).GO.ep ≤
        (simulate_actions_to_wp ep_ground_truth wp_const_half exp_const_one
          (featuresOf { q_scenario with ydstogo := 1 })).GO.ep :=
  ⟨by decide, by decide,
    go_monotonicity_amended wp_const_half exp_const_one q_scenario (by decide)
      (by decide)⟩

end DecisionService
